import Mathlib

/-!
Shallow embedding of the read-only analytics SQL layer of the repository:
  * src/skills/sql-fixer/scripts/check_query_safety.py  (advisory safety check)
  * src/dash/tools/sql.py        (strict write gate, resolver, tool wrappers)
  * src/dash/tools/introspect.py (runtime schema introspection)
  * src/db/config.py             (registry name normalization)

Python strings are modelled as Lean `String` / `List Char` (ASCII case
folding and ASCII whitespace, which is what every statement handled by the
claims uses).  Regular expressions from check_query_safety.py are embedded
as explicit scanners whose word-boundary semantics (`\b`) are spelled out
character by character.
-/

/-- ASCII whitespace, matching Python's `\s` / `str.strip()` on ASCII text:
space, tab, newline, carriage return, vertical tab, form feed. -/
def isSpace (c : Char) : Bool :=
  c = ' ' || c = '\t' || c = '\n' || c = '\r' || c = '\x0b' || c = '\x0c'

/-- ASCII word character, matching Python's `\w` on ASCII text:
letters, digits, underscore. -/
def isWordChar (c : Char) : Bool :=
  c.isAlphanum || c = '_'

/-- Lowercase a string (ASCII case folding, Python `str.lower()`). -/
def pyLowerS (s : String) : String :=
  String.mk (s.data.map Char.toLower)

/-- Python `str.strip()` / trimming of a character class on both ends. -/
def stripChars (p : Char → Bool) (s : List Char) : List Char :=
  ((s.dropWhile p).reverse.dropWhile p).reverse

/-- Embeds `re.sub(r"\s+", " ", sql)`: every maximal whitespace run becomes
a single space.  The boolean argument records whether the previous character
was whitespace (so the current run has already emitted its space). -/
def collapseWsAux : Bool → List Char → List Char
  | _, [] => []
  | prevSpace, c :: cs =>
    if isSpace c then
      if prevSpace then collapseWsAux true cs
      else ' ' :: collapseWsAux true cs
    else c :: collapseWsAux false cs

/-- Embeds `_clean_sql` of check_query_safety.py:
`re.sub(r"\s+", " ", sql).strip()`. -/
def cleanSql (sql : String) : List Char :=
  stripChars isSpace (collapseWsAux false sql.data)

/-- Case-insensitively consume `kw` (given lowercase) from the front of `s`;
return the remainder on success. -/
def stripPrefixCI : List Char → List Char → Option (List Char)
  | [], rest => some rest
  | _ :: _, [] => none
  | k :: ks, c :: cs => if c.toLower = k then stripPrefixCI ks cs else none

/-- Does `\bkw\b` match at the head of `s` (boundary *before* is checked by
the caller)?  Since keywords consist of word characters, the trailing `\b`
holds iff the remainder is empty or starts with a non-word character. -/
def wordMatchAt (kw : List Char) (s : List Char) : Bool :=
  match stripPrefixCI kw s with
  | none => false
  | some [] => true
  | some (c :: _) => !isWordChar c

/-- Scan every position of the text for a match of `p`, requiring a word
boundary before the match: patterns used here all begin with a word
character, so the boundary holds iff the previous character is not a word
character (or we are at the start).  `prevWord` records the wordness of the
previous character. -/
def scanBoundaryAux (p : List Char → Bool) (prevWord : Bool) : List Char → Bool
  | [] => false
  | c :: cs => (!prevWord && p (c :: cs)) || scanBoundaryAux p (isWordChar c) cs

/-- `re.search` of `\bkw\b` (case-insensitive) anywhere in `s`. -/
def occursWord (kw : String) (s : List Char) : Bool :=
  scanBoundaryAux (wordMatchAt kw.data) false s

/-- The write/DDL vocabulary of DESTRUCTIVE_PATTERN (and WRITE_KEYWORDS of
sql.py), listed in lexicographic order so that filtering it embeds
Python's `sorted(set(...))` over the matches. -/
def DESTRUCTIVE_SORTED : List String :=
  ["alter", "create", "delete", "drop", "grant", "insert", "revoke", "truncate", "update"]

/-- Embeds `sorted({m.lower() for m in DESTRUCTIVE_PATTERN.findall(cleaned)})`:
a keyword is in the set iff `\bkw\b` matches somewhere (case-insensitively);
filtering the lexicographically sorted vocabulary yields exactly the sorted
deduplicated hit list. -/
def destructiveHits (cleaned : List Char) : List String :=
  DESTRUCTIVE_SORTED.filter (fun kw => occursWord kw cleaned)

/-- After `limit` and at least one space: consume further spaces, then
require `\d+\b` (a nonempty digit run whose maximal word run is all digits). -/
def digitsTail : List Char → Bool
  | [] => true
  | c :: cs => if c.isDigit then digitsTail cs else !isWordChar c

/-- `\d+\b` at the head of the text: at least one digit, and the digit run
is followed by a non-word character or the end. -/
def digitsThenBoundary : List Char → Bool
  | [] => false
  | c :: cs => c.isDigit && digitsTail cs

/-- Zero or more further spaces, then `\d+\b`. -/
def spacesThenDigits : List Char → Bool
  | [] => false
  | c :: cs => if isSpace c then spacesThenDigits cs else digitsThenBoundary (c :: cs)

/-- `\blimit\s+\d+\b` matching at the head of the text (boundary-before
checked by the scanner). -/
def limitMatchAt (s : List Char) : Bool :=
  match stripPrefixCI "limit".data s with
  | some (c :: cs) => isSpace c && spacesThenDigits (c :: cs)
  | _ => false

/-- Embeds `LIMIT_PATTERN.search(cleaned)`: `\blimit\s+\d+\b` anywhere. -/
def hasLimitNum (s : List Char) : Bool :=
  scanBoundaryAux limitMatchAt false s

/-- Zero or more further spaces, then a literal star. -/
def spacesThenStar : List Char → Bool
  | [] => false
  | c :: cs => if isSpace c then spacesThenStar cs else c = '*'

/-- `\bselect\s+\*` matching at the head of the text. -/
def selectStarAt (s : List Char) : Bool :=
  match stripPrefixCI "select".data s with
  | some (c :: cs) => isSpace c && spacesThenStar (c :: cs)
  | _ => false

/-- Embeds `SELECT_STAR_PATTERN.search(cleaned)`: `\bselect\s+\*` anywhere. -/
def hasSelectStar (s : List Char) : Bool :=
  scanBoundaryAux selectStarAt false s

/-- Embeds `SELECT_PATTERN.search(cleaned)` where the pattern is
`^\s*select\b` (anchored at the start, so `.search` only ever matches a
leading `select`). -/
def startsWithSelect (s : List Char) : Bool :=
  wordMatchAt "select".data (s.dropWhile isSpace)

/-- `cleaned.rstrip(";")`: drop trailing semicolons only. -/
def rstripSemis (s : List Char) : List Char :=
  (s.reverse.dropWhile (· == ';')).reverse

/-- The SafetyVerdict shape returned by check_query_safety. -/
structure SafetyVerdict where
  ok : Bool
  errors : List String
  warnings : List String
deriving Repr, DecidableEq

/-- Error text for the destructive-keyword hit list. -/
def destructiveMsg (hits : List String) : String :=
  "Destructive or write operations detected: " ++ String.intercalate ", " hits ++ "."

def EMPTY_MSG : String := "SQL is empty."

def MULTI_MSG : String := "Multiple SQL statements detected; prefer a single statement."

def LIMIT_MSG : String := "Missing LIMIT clause. Add LIMIT 50 by default."

def STAR_MSG : String := "Avoid SELECT *; specify explicit columns."

/-- Embeds `check_query_safety` of
src/skills/sql-fixer/scripts/check_query_safety.py. -/
def check_query_safety (sql : String) : SafetyVerdict :=
  let cleaned := cleanSql sql
  if cleaned.isEmpty then
    { ok := false, errors := [EMPTY_MSG], warnings := [] }
  else
    let hits := destructiveHits cleaned
    let errors := if hits.isEmpty then [] else [destructiveMsg hits]
    let w1 := if (rstripSemis cleaned).contains ';' then [MULTI_MSG] else []
    let w2 :=
      if startsWithSelect cleaned then
        (if hasLimitNum cleaned then [] else [LIMIT_MSG]) ++
        (if hasSelectStar cleaned then [STAR_MSG] else [])
      else []
    { ok := decide (errors.length = 0), errors := errors, warnings := w1 ++ w2 }





/-- Strict lexicographic comparison of character lists by code point:
Python's `<` on strings. -/
def lexLt : List Char → List Char → Bool
  | [], [] => false
  | [], _ :: _ => true
  | _ :: _, [] => false
  | a :: as, b :: bs => if a < b then true else if a = b then lexLt as bs else false

/-- Reflexive lexicographic comparison of character lists by code point:
Python's `<=` on strings. -/
def lexLe : List Char → List Char → Bool
  | [], _ => true
  | _ :: _, [] => false
  | a :: as, b :: bs => if a < b then true else if a = b then lexLe as bs else false

/-- Insert a string into a lexicographically sorted list, keeping it
sorted. -/
def insertSorted (a : String) : List String → List String
  | [] => [a]
  | b :: bs => if lexLe a.data b.data then a :: b :: bs else b :: insertSorted a bs

/-- Sort a list of strings lexicographically (insertion sort): Python's
`sorted` on strings, which compares by code point. -/
def sortStrings (l : List String) : List String :=
  l.foldr insertSorted []

/-- WRITE_KEYWORDS of src/dash/tools/sql.py (a Python set; listed here in
the source's literal order — only membership is ever used). -/
def WRITE_KEYWORDS : List String :=
  ["insert", "update", "delete", "drop", "alter", "create", "truncate", "grant", "revoke"]

/-- One folding step of whitespace splitting: running word and finished
words to the right of the current position. -/
def splitWsStep (c : Char) (acc : List Char × List (List Char)) :
    List Char × List (List Char) :=
  if isSpace c then ([], if acc.1.isEmpty then acc.2 else acc.1 :: acc.2)
  else (c :: acc.1, acc.2)

/-- Python `str.split()` with no argument: maximal non-whitespace runs,
leading/trailing/repeated whitespace ignored (which also makes the
preceding `.strip()` in the source a no-op). -/
def pySplitWs (s : List Char) : List (List Char) :=
  let r := s.foldr splitWsStep ([], [])
  if r.1.isEmpty then r.2 else r.1 :: r.2

/-- `tokens[0].lower() if tokens else ""` for `tokens = sql.strip().split()`. -/
def firstTokenLower (sql : String) : String :=
  match pySplitWs sql.data with
  | [] => ""
  | t :: _ => String.mk (t.map Char.toLower)

/-- Embeds `_reject_writes` of src/dash/tools/sql.py: true iff the function
raises (first whitespace-delimited token, lowercased, is a write keyword). -/
def rejectWrites (sql : String) : Bool :=
  WRITE_KEYWORDS.contains (firstTokenLower sql)

/-- Python `a or b` where `a : str | None` (None and "" are falsy). -/
def orDefault (a : Option String) (b : String) : String :=
  match a with
  | none => b
  | some s => if s = "" then b else s

/-- A registry is the insertion-ordered name → connection-target mapping the
tool factories receive (`registry: dict[str, str]`). -/
def dbNames (reg : List (String × String)) : List String :=
  reg.map Prod.fst

/-- `db_names[0] if len(db_names) == 1 else None`. -/
def defaultDb (reg : List (String × String)) : Option String :=
  match reg with
  | [(n, _)] => some n
  | _ => none

/-- Dictionary lookup `sql_tools_map[name]` (first binding wins, as in a
Python dict whose keys are unique). -/
def assocFind (reg : List (String × String)) (key : String) : Option String :=
  match reg with
  | [] => none
  | (n, v) :: rest => if n = key then some v else assocFind rest key

/-- The ValueError text raised for an unresolvable name:
`f"Unknown database '{name}'. Available: {', '.join(db_names)}"`. -/
def unknownMsg (name : String) (reg : List (String × String)) : String :=
  "Unknown database '" ++ name ++ "'. Available: " ++ String.intercalate ", " (dbNames reg)

/-- Embeds `_resolve` of src/dash/tools/sql.py (and the line-identical
`_resolve` of src/dash/tools/introspect.py): lowercase
`database or default_db or ""`, then look it up; on failure the ValueError
message above.  The successful value is the backend (connection target)
resolved to. -/
def resolveDb (reg : List (String × String)) (database : Option String) :
    Except String String :=
  let name := pyLowerS (orDefault database (orDefault (defaultDb reg) ""))
  match assocFind reg name with
  | some url => Except.ok url
  | none => Except.error (unknownMsg name reg)

/-- Embeds `_normalize_name` of src/db/config.py (registry build time):
`name.strip().lower()`. -/
def normalizeName (name : String) : String :=
  pyLowerS (String.mk (stripChars isSpace name.data))

/-- Outcome of `run_sql_query`: the write gate's ValueError
("Write operations are not allowed on analytics databases."), the
resolver's ValueError, or dispatch of the statement to the resolved
backend. -/
inductive QueryResult where
  | writeRejected : QueryResult
  | resolutionError (msg : String) : QueryResult
  | dispatched (backend : String) (query : String) : QueryResult
deriving Repr, DecidableEq

/-- Embeds `run_sql_query` of src/dash/tools/sql.py:
`_reject_writes(query)` first, then `_resolve(database).run_sql_query(query)`. -/
def runSqlQuery (reg : List (String × String)) (query : String)
    (database : Option String) : QueryResult :=
  if rejectWrites query then QueryResult.writeRejected
  else
    match resolveDb reg database with
    | Except.error m => QueryResult.resolutionError m
    | Except.ok url => QueryResult.dispatched url query

/-- Formalizes the claim's notion of a statement that performs a write/DDL
operation: a keyword of the write vocabulary occurs as a whole word
(case-insensitively) anywhere in the cleaned statement — the criterion of
the advisory full-body scan. -/
def mentionsWriteKeyword (sql : String) : Bool :=
  !(destructiveHits (cleanSql sql)).isEmpty

/-- _EXCLUDED_SCHEMAS, identical in src/dash/tools/sql.py and
src/dash/tools/introspect.py. -/
def EXCLUDED_SCHEMAS : List String :=
  ["information_schema", "pg_catalog", "pg_toast", "pg_internal"]

/-- A column as reported by the backend inspector. -/
structure ColumnInfo where
  name : String
  declaredType : String
  nullable : Bool
deriving Repr, DecidableEq

/-- A value in a sample row, modelling the Python values a driver row can
hold, together with Python truthiness and `str()`. -/
inductive PyValue where
  | none : PyValue
  | int (n : Int) : PyValue
  | str (s : String) : PyValue
  | bool (b : Bool) : PyValue
deriving Repr, DecidableEq

/-- Python truthiness of a cell value (`if v`). -/
def pyTruthy : PyValue → Bool
  | PyValue.none => false
  | PyValue.int n => n ≠ 0
  | PyValue.str s => s ≠ ""
  | PyValue.bool b => b

/-- Python `str(v)`. -/
def pyStr : PyValue → String
  | PyValue.none => "None"
  | PyValue.int n => toString n
  | PyValue.str s => s
  | PyValue.bool b => if b then "True" else "False"

/-- Embeds the sample-cell rendering of src/dash/tools/introspect.py:
`str(v)[:30] if v else "NULL"` (truthiness test, not an is-None test). -/
def renderCell (v : PyValue) : String :=
  if pyTruthy v then (pyStr v).take 30 else "NULL"

/-- The backend metadata/driver capabilities one resolved engine exposes
(inspector calls and the bounded sample query).  `tablesOf none` is the
default schema, mirroring `get_table_names(schema=None)`. -/
structure Catalog where
  schemaNames : List String
  tablesOf : Option String → List String
  getColumns : String → Option String → Except String (List ColumnInfo)
  pkOf : String → Option String → List String
  sampleOf : String → Option String → Nat → Except String (List String × List (List PyValue))

/-- Embeds the body of `list_tables` of src/dash/tools/sql.py after
resolution: schema names minus _EXCLUDED_SCHEMAS, keeping only schemas with
at least one table, as the `schema → tables` mapping that is serialized. -/
def list_tables (cat : Catalog) : List (String × List String) :=
  (cat.schemaNames.filter (fun s => !(EXCLUDED_SCHEMAS.contains s))).filterMap
    (fun s =>
      let ts := cat.tablesOf (some s)
      if ts.isEmpty then none else some (s, ts))

/-- Embeds `describe_table` of src/dash/tools/sql.py after resolution: the
serialized column list on success, the caught-exception text otherwise
(the JSON rendering of the success branch is kept structural). -/
inductive DescribeResult where
  | columnsJson (cols : List ColumnInfo) : DescribeResult
  | errorText (msg : String) : DescribeResult
deriving Repr, DecidableEq

def describe_table (cat : Catalog) (t : String) (schema : Option String) :
    DescribeResult :=
  match cat.getColumns t schema with
  | Except.ok cols => DescribeResult.columnsJson cols
  | Except.error e => DescribeResult.errorText ("Error getting table schema: " ++ e)

/-- The schemas introspect_schema's list mode scans: the requested schema if
one is given (Python truthiness: `if schema:`), else all schemas minus
_EXCLUDED_SCHEMAS. -/
def schemasToScan (cat : Catalog) (schema : Option String) : List String :=
  match schema with
  | some s =>
    if s ≠ "" then [s]
    else cat.schemaNames.filter (fun x => !(EXCLUDED_SCHEMAS.contains x))
  | none => cat.schemaNames.filter (fun x => !(EXCLUDED_SCHEMAS.contains x))

/-- Embeds the list-tables mode of `introspect_schema` of
src/dash/tools/introspect.py: for each scanned schema in sorted order with
a nonempty table list, a section listing its tables in sorted order (the
markdown rendering and per-table best-effort row counts are kept
structural: a section appears exactly when the source emits a
"### Schema" heading). -/
def introspectListing (cat : Catalog) (schema : Option String) :
    List (String × List String) :=
  (sortStrings (schemasToScan cat schema)).filterMap
    (fun s =>
      let ts := cat.tablesOf (some s)
      if ts.isEmpty then none else some (s, sortStrings ts))

/-- `f"schema '{schema}'" if schema else "default schema"`. -/
def schemaLabel : Option String → String
  | some s => if s ≠ "" then "schema '" ++ s ++ "'" else "default schema"
  | none => "default schema"

/-- The table-not-found message of introspect_schema's single-table mode,
with `", ".join(sorted(tables)) if tables else "(none)"`. -/
def tableNotFoundMsg (t : String) (schema : Option String) (db : String)
    (tables : List String) : String :=
  "Table '" ++ t ++ "' not found in " ++ schemaLabel schema ++ " of '" ++ db ++
    "'. Available: " ++
    (if tables.isEmpty then "(none)" else String.intercalate ", " (sortStrings tables))

/-- Decidable equality for `Except`, needed to compare introspection
outcomes on concrete inputs. -/
instance exceptDecidableEq (ε α : Type) [DecidableEq ε] [DecidableEq α] :
    DecidableEq (Except ε α) := fun a b =>
  match a, b with
  | Except.error e₁, Except.error e₂ => decidable_of_iff (e₁ = e₂) (by simp)
  | Except.error _, Except.ok _ => isFalse (by simp)
  | Except.ok _, Except.error _ => isFalse (by simp)
  | Except.ok a₁, Except.ok a₂ => decidable_of_iff (a₁ = a₂) (by simp)

/-- Outcome of introspect_schema's single-table mode: the not-found message,
a caught backend error ("Error: {e}"), or the table report (columns,
primary key, and — when requested — the sample block: column names and
rows rendered cell-by-cell, or the sample query's error). -/
inductive IntrospectReport where
  | notFound (msg : String) : IntrospectReport
  | backendError (msg : String) : IntrospectReport
  | report (cols : List ColumnInfo) (pk : List String)
      (sample : Option (Except String (List String × List (List String)))) :
      IntrospectReport
deriving Repr, DecidableEq

/-- Embeds the single-table mode of `introspect_schema` of
src/dash/tools/introspect.py after resolution: existence check against
`get_table_names(schema=schema)` first, then columns, primary key and the
optional sample (each cell rendered by `renderCell`). -/
def introspectDescribe (cat : Catalog) (db t : String) (schema : Option String)
    (includeSample : Bool) (limit : Nat) : IntrospectReport :=
  let tables := cat.tablesOf schema
  if tables.contains t then
    match cat.getColumns t schema with
    | Except.error e => IntrospectReport.backendError ("Error: " ++ e)
    | Except.ok cols =>
      IntrospectReport.report cols (cat.pkOf t schema)
        (if includeSample then
          some ((cat.sampleOf t schema limit).map
            (fun sb => (sb.1, sb.2.map (fun row => row.map renderCell))))
        else none)
  else IntrospectReport.notFound (tableNotFoundMsg t schema db tables)

/-- Does `pat` occur as a contiguous substring of `s`?  Used to state what a
message does or does not carry. -/
def containsSub (pat s : List Char) : Bool :=
  match s with
  | [] => pat.isEmpty
  | _ :: rest => pat.isPrefixOf s || containsSub pat rest

/-- A concrete backend catalog exercising system-schema exclusion: the
physical catalog reports two internal schemas alongside `public`. -/
def demoCatalog : Catalog where
  schemaNames := ["public", "pg_catalog", "information_schema"]
  tablesOf := fun _ => ["t1"]
  getColumns := fun _ _ => Except.ok []
  pkOf := fun _ _ => []
  sampleOf := fun _ _ _ => Except.ok ([], [])

/-- A concrete backend whose (default-schema) tables are `b`, `a` and whose
inspector raises on a missing table, as SQLAlchemy's `get_columns` does. -/
def demoCatalogB : Catalog where
  schemaNames := ["main"]
  tablesOf := fun _ => ["b", "a"]
  getColumns := fun t _ =>
    if t = "b" ∨ t = "a" then
      Except.ok [{ name := "id", declaredType := "INTEGER", nullable := false }]
    else Except.error ("no such table: " ++ t)
  pkOf := fun _ _ => []
  sampleOf := fun _ _ _ => Except.ok ([], [])

theorem lexLt_irrefl (l : List Char) : lexLt l l = false := by
  induction l with
  | nil => rfl
  | cons a as ih => simp [lexLt, ih]

theorem mem_insertSorted {a b : String} {l : List String} :
    a ∈ insertSorted b l ↔ a = b ∨ a ∈ l := by
  induction l with
  | nil => simp [insertSorted]
  | cons c cs ih =>
    simp only [insertSorted]
    split
    · simp [List.mem_cons]
    · simp only [List.mem_cons, ih]
      tauto

theorem mem_sortStrings {a : String} {l : List String} :
    a ∈ sortStrings l ↔ a ∈ l := by
  induction l with
  | nil => simp [sortStrings]
  | cons b bs ih =>
    show a ∈ insertSorted b (sortStrings bs) ↔ a ∈ b :: bs
    rw [mem_insertSorted, ih]
    simp [List.mem_cons]

theorem assocFind_eq_none (reg : List (String × String)) (k : String)
    (h : k ∉ dbNames reg) : assocFind reg k = none := by
  induction reg with
  | nil => rfl
  | cons p rest ih =>
    obtain ⟨n, v⟩ := p
    simp only [dbNames, List.map_cons, List.mem_cons, not_or] at h
    simp only [assocFind]
    rw [if_neg (fun he : n = k => h.1 he.symm)]
    exact ih (by simpa [dbNames] using h.2)

theorem check_eq_of_nonempty (sql : String) (h : (cleanSql sql).isEmpty = false) :
    check_query_safety sql =
      { ok := (destructiveHits (cleanSql sql)).isEmpty,
        errors :=
          if (destructiveHits (cleanSql sql)).isEmpty then []
          else [destructiveMsg (destructiveHits (cleanSql sql))],
        warnings :=
          (if (rstripSemis (cleanSql sql)).contains ';' then [MULTI_MSG] else []) ++
          (if startsWithSelect (cleanSql sql) then
            (if hasLimitNum (cleanSql sql) then [] else [LIMIT_MSG]) ++
            (if hasSelectStar (cleanSql sql) then [STAR_MSG] else [])
          else []) } := by
  cases hd : (destructiveHits (cleanSql sql)).isEmpty <;>
    simp [check_query_safety, h, hd]

theorem not_excluded_of_filter (a : String) (hs : a ∈ EXCLUDED_SCHEMAS)
    (hc : (!(EXCLUDED_SCHEMAS.contains a)) = true) : False := by
  rcases (by simpa [EXCLUDED_SCHEMAS] using hs :
      a = "information_schema" ∨ a = "pg_catalog" ∨ a = "pg_toast" ∨ a = "pg_internal") with
    rfl | rfl | rfl | rfl <;> exact absurd hc (by decide)

/-- C10: for every input string, the advisory verdict's ok field is true
exactly when the errors list is empty; the warnings list never influences
ok. -/
theorem check_ok_iff_no_errors (sql : String) :
    (check_query_safety sql).ok = (check_query_safety sql).errors.isEmpty := by
  cases hc : (cleanSql sql).isEmpty
  · rw [check_eq_of_nonempty sql hc]
    cases hd : (destructiveHits (cleanSql sql)).isEmpty <;> simp [hd]
  · simp [check_query_safety, hc]

/-- C5: the advisory check scans the whole cleaned statement for whole-word,
case-insensitive occurrences of the nine write/DDL keywords; any occurrence
anywhere yields ok = false with a single error naming exactly the matched
keywords, deduplicated and lexicographically sorted; and the spec's four
examples behave exactly as stated. -/
theorem advisory_scan_whole_body (sql : String)
    (h : destructiveHits (cleanSql sql) ≠ []) :
    (check_query_safety sql).ok = false ∧
    (check_query_safety sql).errors =
      [destructiveMsg (destructiveHits (cleanSql sql))] ∧
    List.Pairwise (fun a b : String => lexLt a.data b.data = true)
      (destructiveHits (cleanSql sql)) ∧
    (destructiveHits (cleanSql sql)).Nodup ∧
    check_query_safety "DROP TABLE x" =
      { ok := false, errors := ["Destructive or write operations detected: drop."],
        warnings := [] } ∧
    check_query_safety "insert into x values (1)" =
      { ok := false, errors := ["Destructive or write operations detected: insert."],
        warnings := [] } ∧
    check_query_safety "  Update x set y=1" =
      { ok := false, errors := ["Destructive or write operations detected: update."],
        warnings := [] } ∧
    check_query_safety "SELECT id FROM x LIMIT 10" =
      { ok := true, errors := [], warnings := [] } := by
  have hnil : destructiveHits ([] : List Char) = [] := by decide
  have hne : (cleanSql sql).isEmpty = false := by
    cases hcs : cleanSql sql with
    | nil => rw [hcs] at h; exact absurd hnil h
    | cons a l => rfl
  have hd : (destructiveHits (cleanSql sql)).isEmpty = false := by
    cases hds : destructiveHits (cleanSql sql) with
    | nil => exact absurd hds h
    | cons a l => rfl
  have hpw : List.Pairwise (fun a b : String => lexLt a.data b.data = true)
      (destructiveHits (cleanSql sql)) := by
    have hsorted : List.Pairwise (fun a b : String => lexLt a.data b.data = true)
        DESTRUCTIVE_SORTED := by decide
    exact hsorted.filter _
  refine ⟨?_, ?_, hpw, ?_, by decide, by decide, by decide, by decide⟩
  · rw [check_eq_of_nonempty sql hne]; simp [hd]
  · rw [check_eq_of_nonempty sql hne]; simp [hd]
  · refine hpw.imp ?_
    intro a b hab he
    rw [he, lexLt_irrefl] at hab
    cases hab

/-- Witness: applying the whole-body-scan theorem at "DROP TABLE x". -/
theorem advisory_scan_whole_body_witness :
    destructiveHits (cleanSql "DROP TABLE x") ≠ [] ∧
    (check_query_safety "DROP TABLE x").ok = false :=
  ⟨by decide, (advisory_scan_whole_body "DROP TABLE x" (by decide)).1⟩

/-- C6 counterexample: a non-empty statement that contains `select *` but
does not begin with select receives no warning at all, refuting the claim
that every statement containing `select *` is warned about. -/
theorem select_star_not_warned_in_cte :
    hasSelectStar (cleanSql "with t as (select * from x) select id from t limit 5") = true ∧
    cleanSql "with t as (select * from x) select id from t limit 5" ≠ [] ∧
    check_query_safety "with t as (select * from x) select id from t limit 5" =
      { ok := true, errors := [], warnings := [] } := by decide

/-- C6 amended: the `select *` warning is issued when the cleaned statement
begins with select (after optional whitespace) and contains `select *`;
statements not beginning with select are never given this warning. -/
theorem select_star_warning_when_leading_select (sql : String)
    (h1 : startsWithSelect (cleanSql sql) = true)
    (h2 : hasSelectStar (cleanSql sql) = true) :
    STAR_MSG ∈ (check_query_safety sql).warnings := by
  have hne : (cleanSql sql).isEmpty = false := by
    cases hcs : cleanSql sql with
    | nil => rw [hcs] at h1; exact absurd h1 (by decide)
    | cons a l => rfl
  rw [check_eq_of_nonempty sql hne]
  simp [h1, h2]

/-- Witness: the `select *` warning at "SELECT * FROM x". -/
theorem select_star_warning_when_leading_select_witness :
    startsWithSelect (cleanSql "SELECT * FROM x") = true ∧
    STAR_MSG ∈ (check_query_safety "SELECT * FROM x").warnings :=
  ⟨by decide,
   select_star_warning_when_leading_select "SELECT * FROM x" (by decide) (by decide)⟩

/-- C1 counterexample: a statement that performs a DELETE behind a leading
CTE is not rejected — it is dispatched to the backend — because the strict
gate inspects only the first whitespace-delimited token; this refutes the
claim that every write/DDL statement is rejected and that no write ever
reaches a backend through run_sql_query. -/
theorem cte_write_dispatched :
    mentionsWriteKeyword "with t as (select 1) delete from x" = true ∧
    rejectWrites "with t as (select 1) delete from x" = false ∧
    runSqlQuery [("main", "postgres-main")] "with t as (select 1) delete from x" none =
      QueryResult.dispatched "postgres-main" "with t as (select 1) delete from x" := by
  decide

/-- C1 amended: run_sql_query rejects — before resolving the database (any
database argument, resolvable or not) and without dispatching anything —
every statement whose first whitespace-delimited token lowercases to one of
the nine write/DDL keywords. -/
theorem run_sql_query_first_token_gate (reg : List (String × String))
    (query : String) (database : Option String)
    (h : rejectWrites query = true) :
    runSqlQuery reg query database = QueryResult.writeRejected ∧
    ∀ backend q, runSqlQuery reg query database ≠ QueryResult.dispatched backend q := by
  have hr : runSqlQuery reg query database = QueryResult.writeRejected := by
    unfold runSqlQuery
    rw [h]
    rfl
  exact ⟨hr, fun backend q hc => by rw [hr] at hc; cases hc⟩

/-- Witness: a leading DROP is rejected even alongside an unresolvable
database name. -/
theorem run_sql_query_first_token_gate_witness :
    rejectWrites "DROP TABLE x" = true ∧
    runSqlQuery [("main", "postgres-main")] "DROP TABLE x" (some "nosuchdb") =
      QueryResult.writeRejected :=
  ⟨by decide,
   (run_sql_query_first_token_gate [("main", "postgres-main")] "DROP TABLE x"
     (some "nosuchdb") (by decide)).1⟩

/-- C2 counterexample: casing variants resolve to the same backend, but a
leading/trailing-whitespace variant of a registered name fails with the
unknown-database error, because resolution lowercases without trimming. -/
theorem whitespace_variant_fails :
    resolveDb [("main", "postgres-main")] (some "main") = Except.ok "postgres-main" ∧
    resolveDb [("main", "postgres-main")] (some "MAIN") = Except.ok "postgres-main" ∧
    resolveDb [("main", "postgres-main")] (some " Main ") =
      Except.error "Unknown database ' main '. Available: main" := by decide

/-- C2 amended: for a registered name n (normalized at registry build time:
trimmed and lowercased, nonempty), every casing variant s of n (s lowercases
to n, s nonempty) resolves to the same backend as n itself; whitespace
variants are not covered because resolution does not trim. -/
theorem casing_variant_resolves (reg : List (String × String)) (n url s : String)
    (hfind : assocFind reg n = some url) (hnorm : pyLowerS n = n) (hne : n ≠ "")
    (hs : pyLowerS s = n) (hsne : s ≠ "") :
    resolveDb reg (some s) = Except.ok url ∧
    resolveDb reg (some n) = Except.ok url := by
  constructor
  · unfold resolveDb
    simp only [orDefault, if_neg hsne]
    rw [hs, hfind]
  · unfold resolveDb
    simp only [orDefault, if_neg hne]
    rw [hnorm, hfind]

/-- Witness: "MaIn" resolves to the backend registered as "main". -/
theorem casing_variant_resolves_witness :
    resolveDb [("main", "postgres-main")] (some "MaIn") = Except.ok "postgres-main" :=
  (casing_variant_resolves [("main", "postgres-main")] "main" "postgres-main" "MaIn"
    (by decide) (by decide) (by decide) (by decide) (by decide)).1

/-- C3 counterexample: with exactly one registered entry, the supplied name
is not ignored — an unregistered name fails with the unknown-database error
instead of returning the single entry. -/
theorem single_entry_name_not_ignored :
    resolveDb [("main", "postgres-main")] none = Except.ok "postgres-main" ∧
    resolveDb [("main", "postgres-main")] (some "other") =
      Except.error "Unknown database 'other'. Available: main" := by decide

/-- C3 amended: with exactly one registered entry (normalized, nonempty
name n), resolving with no name — or the empty string, or any casing
variant of n — returns that entry, while a nonempty name that does not
lowercase to n fails with the unknown-database error. -/
theorem single_entry_default (n url : String)
    (hnorm : pyLowerS n = n) (hne : n ≠ "") :
    resolveDb [(n, url)] none = Except.ok url ∧
    resolveDb [(n, url)] (some "") = Except.ok url ∧
    (∀ s, pyLowerS s = n → s ≠ "" → resolveDb [(n, url)] (some s) = Except.ok url) ∧
    (∀ s, s ≠ "" → pyLowerS s ≠ n →
      resolveDb [(n, url)] (some s) =
        Except.error (unknownMsg (pyLowerS s) [(n, url)])) := by
  have hres : ∀ s, pyLowerS s = n → s ≠ "" →
      resolveDb [(n, url)] (some s) = Except.ok url := by
    intro s hs hsne
    unfold resolveDb
    simp only [orDefault, if_neg hsne]
    rw [hs]
    simp [assocFind]
  refine ⟨?_, ?_, hres, ?_⟩
  · unfold resolveDb defaultDb
    simp only [orDefault, if_neg hne]
    rw [hnorm]
    simp [assocFind]
  · unfold resolveDb
    have h1 : orDefault (some "") (orDefault (defaultDb [(n, url)]) "") = n := by
      simp [orDefault, defaultDb, hne]
    rw [h1, hnorm]
    simp [assocFind]
  · intro s hsne hsn
    unfold resolveDb
    simp only [orDefault, if_neg hsne]
    rw [assocFind_eq_none [(n, url)] (pyLowerS s) (by simp [dbNames, fun h : pyLowerS s = n => hsn h])]

/-- Witness: single-entry default and the failure of an unregistered name. -/
theorem single_entry_default_witness :
    resolveDb [("main", "postgres-main")] none = Except.ok "postgres-main" ∧
    resolveDb [("main", "postgres-main")] (some "other") =
      Except.error (unknownMsg "other" [("main", "postgres-main")]) := by
  refine ⟨(single_entry_default "main" "postgres-main" (by decide) (by decide)).1, ?_⟩
  have h := (single_entry_default "main" "postgres-main" (by decide) (by decide)).2.2.2
    "other" (by decide) (by decide)
  have hz : pyLowerS "other" = "other" := by decide
  rw [hz] at h
  exact h

/-- C4 counterexample: with two entries, resolving with no name produces the
same unknown-database ValueError (requested name normalizes to the empty
string) rather than a distinct AmbiguousDatabase error, and both failures
carry the names in registry insertion order "b, a", not sorted "a, b". -/
theorem multi_entry_unsorted_not_distinct :
    resolveDb [("b", "u1"), ("a", "u2")] none =
      Except.error "Unknown database ''. Available: b, a" ∧
    resolveDb [("b", "u1"), ("a", "u2")] (some "zzz") =
      Except.error "Unknown database 'zzz'. Available: b, a" ∧
    sortStrings ["b", "a"] = ["a", "b"] := by decide

/-- C4 amended: with two or more entries (no empty name registered),
resolving with no name fails with the unknown-database error for the empty
requested name, and resolving an unregistered nonempty name fails with the
unknown-database error for its lowercased form; both carry the available
names in registry insertion order, not sorted. -/
theorem multi_entry_failures (reg : List (String × String))
    (h2 : 2 ≤ reg.length) (h0 : "" ∉ dbNames reg) :
    resolveDb reg none = Except.error (unknownMsg "" reg) ∧
    ∀ s, s ≠ "" → pyLowerS s ∉ dbNames reg →
      resolveDb reg (some s) = Except.error (unknownMsg (pyLowerS s) reg) := by
  have hdef : defaultDb reg = none := by
    rcases reg with _ | ⟨⟨n, v⟩, _ | ⟨⟨m, w⟩, t⟩⟩
    · simp at h2
    · simp at h2
    · rfl
  constructor
  · unfold resolveDb
    rw [hdef]
    simp only [orDefault]
    have hlow : pyLowerS "" = "" := by decide
    rw [hlow, assocFind_eq_none reg "" h0]
  · intro s hsne hns
    unfold resolveDb
    simp only [orDefault, if_neg hsne]
    rw [assocFind_eq_none reg (pyLowerS s) hns]

/-- Witness: both multi-entry failure modes on a two-entry registry. -/
theorem multi_entry_failures_witness :
    resolveDb [("b", "u1"), ("a", "u2")] none =
      Except.error (unknownMsg "" [("b", "u1"), ("a", "u2")]) ∧
    resolveDb [("b", "u1"), ("a", "u2")] (some "zzz") =
      Except.error (unknownMsg "zzz" [("b", "u1"), ("a", "u2")]) := by
  refine ⟨(multi_entry_failures [("b", "u1"), ("a", "u2")] (by decide) (by decide)).1, ?_⟩
  have h := (multi_entry_failures [("b", "u1"), ("a", "u2")] (by decide) (by decide)).2
    "zzz" (by decide) (by decide)
  have hz : pyLowerS "zzz" = "zzz" := by decide
  rw [hz] at h
  exact h

/-- C7: system/internal catalog schemas never appear in table enumeration:
never in list_tables (which exposes no schema filter), and in
introspect_schema's list mode only when the schema filter explicitly names
the system schema — even when the physical catalog reports such schemas. -/
theorem system_schemas_excluded (cat : Catalog) (filt : Option String)
    (s : String) (hs : s ∈ EXCLUDED_SCHEMAS) :
    (∀ ts, (s, ts) ∉ list_tables cat) ∧
    (∀ ts, (s, ts) ∈ introspectListing cat filt → filt = some s) := by
  constructor
  · intro ts hmem
    simp only [list_tables, List.mem_filterMap, List.mem_filter] at hmem
    obtain ⟨a, ⟨hmem2, hcond⟩, hfa⟩ := hmem
    split at hfa
    · cases hfa
    · simp only [Option.some.injEq, Prod.mk.injEq] at hfa
      obtain ⟨rfl, -⟩ := hfa
      exact not_excluded_of_filter a hs hcond
  · intro ts hmem
    simp only [introspectListing, List.mem_filterMap] at hmem
    obtain ⟨a, ha, hfa⟩ := hmem
    split at hfa
    · cases hfa
    · simp only [Option.some.injEq, Prod.mk.injEq] at hfa
      obtain ⟨rfl, -⟩ := hfa
      have ha' : a ∈ schemasToScan cat filt := mem_sortStrings.mp ha
      cases filt with
      | none =>
        exfalso
        simp only [schemasToScan, List.mem_filter] at ha'
        exact not_excluded_of_filter a hs ha'.2
      | some f =>
        by_cases hf : f = ""
        · exfalso
          subst hf
          simp only [schemasToScan, ne_eq, not_true_eq_false, if_false,
            List.mem_filter] at ha'
          exact not_excluded_of_filter a hs ha'.2
        · simp only [schemasToScan, if_pos hf, List.mem_singleton] at ha'
          rw [ha']

/-- Witness: pg_catalog is reported by the physical catalog of demoCatalog
but enumerated by neither tool. -/
theorem system_schemas_excluded_witness :
    "pg_catalog" ∈ EXCLUDED_SCHEMAS ∧
    ("pg_catalog", ["t1"]) ∉ list_tables demoCatalog ∧
    (("pg_catalog", ["t1"]) ∈ introspectListing demoCatalog (some "public") →
      (some "public" : Option String) = some "pg_catalog") :=
  ⟨by decide,
   (system_schemas_excluded demoCatalog none "pg_catalog" (by decide)).1 ["t1"],
   (system_schemas_excluded demoCatalog (some "public") "pg_catalog" (by decide)).2 ["t1"]⟩

/-- C8 counterexample: the describe_table wrapper of sql.py, asked for a
missing table on a backend whose default schema has tables b and a, returns
only the caught backend error text; the message carries no TableNotFound
listing — in particular not the sorted table list "a, b" — refuting the
claim for this describeTable operation. -/
theorem describe_table_no_available_list :
    describe_table demoCatalogB "nope" none =
      DescribeResult.errorText "Error getting table schema: no such table: nope" ∧
    containsSub "a, b".data "Error getting table schema: no such table: nope".data = false := by
  decide

/-- C8 amended: introspect_schema's single-table mode does fail with the
table-not-found message carrying the sorted list of tables available in the
resolved schema, while sql.py's describe_table merely surfaces the caught
backend error text unchanged, with no table list. -/
theorem introspect_table_not_found (cat : Catalog) (db t : String)
    (schema : Option String) (inc : Bool) (lim : Nat)
    (h : (cat.tablesOf schema).contains t = false) :
    introspectDescribe cat db t schema inc lim =
      IntrospectReport.notFound (tableNotFoundMsg t schema db (cat.tablesOf schema)) ∧
    ∀ e, cat.getColumns t schema = Except.error e →
      describe_table cat t schema =
        DescribeResult.errorText ("Error getting table schema: " ++ e) := by
  constructor
  · unfold introspectDescribe
    show (if (cat.tablesOf schema).contains t = true then _ else _) = _
    rw [h]
    simp
  · intro e he
    unfold describe_table
    rw [he]

set_option maxRecDepth 4096 in
/-- Witness: the not-found message on the concrete backend, with the sorted
table list a, b. -/
theorem introspect_table_not_found_witness :
    introspectDescribe demoCatalogB "main" "nope" none false 5 =
      IntrospectReport.notFound
        "Table 'nope' not found in default schema of 'main'. Available: a, b" ∧
    describe_table demoCatalogB "nope" none =
      DescribeResult.errorText "Error getting table schema: no such table: nope" := by
  have h := introspect_table_not_found demoCatalogB "main" "nope" none false 5 (by decide)
  have hm : tableNotFoundMsg "nope" none "main" (demoCatalogB.tablesOf none) =
      "Table 'nope' not found in default schema of 'main'. Available: a, b" := by decide
  refine ⟨hm ▸ h.1, ?_⟩
  have h2 := h.2 "no such table: nope" (by decide)
  simpa using h2

set_option maxRecDepth 8192 in
/-- C9 (code bug): null renders as NULL and a 49-character string truncates
to exactly its first 30 characters, as claimed — but falsy non-null values
(integer 0, the empty string, False) also render as NULL, because the code
tests Python truthiness (`if v`) instead of is-None. -/
theorem render_cell_truthiness :
    renderCell PyValue.none = "NULL" ∧
    renderCell (PyValue.str "a-very-long-string-that-exceeds-thirty-characters") =
      "a-very-long-string-that-exceed" ∧
    "a-very-long-string-that-exceeds-thirty-characters".length = 49 ∧
    "a-very-long-string-that-exceed".length = 30 ∧
    renderCell (PyValue.int 0) = "NULL" ∧
    renderCell (PyValue.str "") = "NULL" ∧
    renderCell (PyValue.bool false) = "NULL" := by decide
